import Mathlib

/-!
Shallow embedding of the LMS scanner's file-scan step
(`src/libs/services/scanner/impl/ScanStepScanFiles.cpp`), together with
proofs about its change detection, identity resolution, duplicate
suppression, validity gate and track upsert logic.

Database sessions are modelled as an explicit catalog state (`Db`)
threaded through the operations; scan statistics are an explicit
`ScanStats` record.  MBIDs, paths and names are strings; times are
`Nat` (seconds, matching the `toTime_t` comparison in the source).
-/

namespace LmsScan

/-- A (year, month, day) date; the source's `Wt::WDate` is modelled as
`Option PDate`, `none` standing for an invalid date (`!isValid()`). -/
structure PDate where
  year : Int
  month : Nat
  day : Nat
deriving DecidableEq, Repr

/-- `MetaData::Artist`: a raw artist record parsed from a file's tags. -/
structure MetaArtist where
  name : String
  musicBrainzArtistID : Option String
  sortName : Option String
deriving DecidableEq, Repr

/-- `MetaData::Album`: raw album information parsed from a file's tags. -/
structure MetaAlbum where
  name : String
  musicBrainzAlbumID : Option String
deriving DecidableEq, Repr

/-- A cataloged `Database::Artist` entity. -/
structure Artist where
  id : Nat
  name : String
  sortName : String
  mbid : Option String
deriving DecidableEq, Repr

/-- A cataloged `Database::Release` entity. -/
structure Release where
  id : Nat
  name : String
  mbid : Option String
deriving DecidableEq, Repr

/-- A cataloged `Database::Cluster` entity: a (type, name) tag. -/
structure Cluster where
  id : Nat
  typeName : String
  name : String
deriving DecidableEq, Repr

/-- Role enumeration carried by a `TrackArtistLink`. -/
inductive LinkType where
  | artist
  | releaseArtist
  | conductor
  | composer
  | lyricist
  | mixer
  | performer
  | producer
  | remixer
deriving DecidableEq, Repr

/-- A `Database::TrackArtistLink`: a role-typed association from the
owning track to an artist (`role` is the optional performer role
string, empty for every other link type). -/
structure ArtistLink where
  artistId : Nat
  linkType : LinkType
  role : String
deriving DecidableEq, Repr

/-- A cataloged `Database::Track` entity with the fields written by
`ScanStepScanFiles::scanAudioFile`.  Replay-gain values are kept
opaque as `Option Int` (they are only copied, never computed on). -/
structure Track where
  id : Nat
  path : String
  name : String
  duration : Nat
  lastWriteTime : Nat
  scanVersion : Nat
  addedTime : Nat
  release : Option Nat
  clusterIds : List Nat
  artistLinks : List ArtistLink
  trackNumber : Nat
  discNumber : Nat
  totalTrack : Option Nat
  totalDisc : Option Nat
  discSubtitle : String
  date : Option PDate
  originalDate : Option PDate
  recordingMBID : Option String
  trackMBID : Option String
  hasCover : Bool
  copyright : String
  copyrightURL : String
  trackReplayGain : Option Int
  releaseReplayGain : Option Int
deriving DecidableEq, Repr

/-- The catalog store: entity tables in creation (encounter) order plus
the id allocator.  `clusterTypeNames` is the set of provisioned
`ClusterType`s; `trackFeatures` lists the track ids owning a
`TrackFeatures` record. -/
structure Db where
  artists : List Artist
  releases : List Release
  tracks : List Track
  clusters : List Cluster
  clusterTypeNames : List String
  trackFeatures : List Nat
  nextId : Nat
deriving DecidableEq, Repr

/-- `Artist::find(session, mbid)`: look an artist up by MBID. -/
def findArtistByMBID (db : Db) (m : String) : Option Artist :=
  db.artists.find? (fun a => a.mbid = some m)

/-- `Artist::find(session, name)`: all same-named artists, in encounter
order. -/
def findArtistsByName (db : Db) (n : String) : List Artist :=
  db.artists.filter (fun a => a.name = n)

/-- `Release::find(session, mbid)`. -/
def findReleaseByMBID (db : Db) (m : String) : Option Release :=
  db.releases.find? (fun r => r.mbid = some m)

/-- `Release::find(session, name)`: all same-named releases, in
encounter order. -/
def findReleasesByName (db : Db) (n : String) : List Release :=
  db.releases.filter (fun r => r.name = n)

/-- `Track::findByPath(session, file)`. -/
def findTrackByPath (db : Db) (p : String) : Option Track :=
  db.tracks.find? (fun t => t.path = p)

/-- `Track::findByRecordingMBID(session, mbid)`: every track carrying
the given recording MBID, in encounter order. -/
def findTracksByRecordingMBID (db : Db) (m : String) : List Track :=
  db.tracks.filter (fun t => t.recordingMBID = some m)

/-- Replace the artist with the given id (the `modify()`-in-place
pattern applied to an artist row). -/
def replaceArtist (db : Db) (aid : Nat) (a : Artist) : Db :=
  { db with artists := db.artists.map (fun x => if x.id = aid then a else x) }

/-- Replace the release with the given id. -/
def replaceRelease (db : Db) (rid : Nat) (r : Release) : Db :=
  { db with releases := db.releases.map (fun x => if x.id = rid then r else x) }

/-- `track.remove()`: delete the track with the given id. -/
def removeTrack (db : Db) (tid : Nat) : Db :=
  { db with tracks := db.tracks.filter (fun t => t.id ≠ tid) }

/-- `createArtist` (anonymous namespace): create an artist from a raw
record — name from the record, then MBID and sort-name are set only
when present (a fresh artist's sort-name defaults to the empty
string). -/
def createArtist (db : Db) (info : MetaArtist) : Artist × Db :=
  let a : Artist :=
    { id := db.nextId
      name := info.name
      sortName := match info.sortName with | some sn => sn | none => ""
      mbid := info.musicBrainzArtistID }
  (a, { db with artists := db.artists ++ [a], nextId := db.nextId + 1 })

/-- `updateArtistIfNeeded` (anonymous namespace): the updated artist
value — name overwritten when it differs, sort-name overwritten when
supplied and different. -/
def updateArtist (a : Artist) (info : MetaArtist) : Artist :=
  let a1 := if a.name ≠ info.name then { a with name := info.name } else a
  match info.sortName with
  | some sn => if sn ≠ a1.sortName then { a1 with sortName := sn } else a1
  | none => a1

/-- The body of the per-record loop of `getOrCreateArtists`: resolve a
single raw artist record to a catalog artist (MBID first, then
name-fallback governed by `allowFallbackOnMBIDEntries`, skipping
records with neither MBID nor name). -/
def resolveArtist (db : Db) (info : MetaArtist) (allowFallbackOnMBIDEntries : Bool) :
    Option Artist × Db :=
  match info.musicBrainzArtistID with
  | some m =>
      match findArtistByMBID db m with
      | none => let (a, db) := createArtist db info; (some a, db)
      | some a =>
          let a' := updateArtist a info
          (some a', replaceArtist db a.id a')
  | none =>
      if info.name ≠ "" then
        match (findArtistsByName db info.name).find?
            (fun a => allowFallbackOnMBIDEntries || a.mbid.isNone) with
        | none => let (a, db) := createArtist db info; (some a, db)
        | some a =>
            let a' := updateArtist a info
            (some a', replaceArtist db a.id a')
      else
        (none, db)

/-- `getOrCreateArtists` (anonymous namespace): resolve a list of raw
artist records, in order, threading the catalog state. -/
def getOrCreateArtists (db : Db) (infos : List MetaArtist)
    (allowFallbackOnMBIDEntries : Bool) : List Artist × Db :=
  infos.foldl
    (fun (acc : List Artist × Db) info =>
      match resolveArtist acc.2 info allowFallbackOnMBIDEntries with
      | (some a, db) => (acc.1 ++ [a], db)
      | (none, db) => (acc.1, db))
    ([], db)

/-- `getOrCreateRelease` (anonymous namespace): MBID first (create on
miss, update the name on mismatch), else name-fallback restricted to
releases without an MBID, else no release at all. -/
def getOrCreateRelease (db : Db) (album : MetaAlbum) : Option Release × Db :=
  match album.musicBrainzAlbumID with
  | some m =>
      match findReleaseByMBID db m with
      | none =>
          let r : Release := { id := db.nextId, name := album.name, mbid := some m }
          (some r, { db with releases := db.releases ++ [r], nextId := db.nextId + 1 })
      | some r =>
          if r.name ≠ album.name then
            let r' := { r with name := album.name }
            (some r', replaceRelease db r.id r')
          else
            (some r, db)
  | none =>
      if album.name ≠ "" then
        match (findReleasesByName db album.name).find? (fun r => r.mbid.isNone) with
        | none =>
            let r : Release := { id := db.nextId, name := album.name, mbid := none }
            (some r, { db with releases := db.releases ++ [r], nextId := db.nextId + 1 })
        | some r => (some r, db)
      else
        (none, db)

/-- `getOrCreateClusters` (anonymous namespace): for each
(cluster-type name, value names) pair, drop unknown types and
find-or-create each (type, name) cluster. -/
def getOrCreateClusters (db : Db) (clustersNames : List (String × List String)) :
    List Cluster × Db :=
  clustersNames.foldl
    (fun (acc : List Cluster × Db) pair =>
      if acc.2.clusterTypeNames.contains pair.1 then
        pair.2.foldl
          (fun (acc : List Cluster × Db) clusterName =>
            match acc.2.clusters.find?
                (fun c => c.typeName = pair.1 ∧ c.name = clusterName) with
            | some c => (acc.1 ++ [c], acc.2)
            | none =>
                let c : Cluster :=
                  { id := acc.2.nextId, typeName := pair.1, name := clusterName }
                (acc.1 ++ [c],
                 { acc.2 with clusters := acc.2.clusters ++ [c],
                              nextId := acc.2.nextId + 1 }))
          acc
      else
        acc)
    ([], db)

/-- `ScanErrorType`: the per-file error taxonomy. -/
inductive ScanErrorType where
  | cannotReadFile
  | cannotParseFile
  | noAudioTrack
  | badDuration
deriving DecidableEq, Repr

/-- `ScanError`: a recorded per-file error (path, kind, optional
underlying system message; empty when none was supplied). -/
structure ScanError where
  file : String
  error : ScanErrorType
  systemError : String
deriving DecidableEq, Repr

/-- `ScanStats`: the per-run counters and error list mutated by the
scan step (`filesScanned` is filled by an earlier discovery step and
only read here, as `currentStepStats.totalElems`). -/
structure ScanStats where
  filesScanned : Nat
  skips : Nat
  scans : Nat
  additions : Nat
  updates : Nat
  deletions : Nat
  errors : List ScanError
deriving DecidableEq, Repr

/-- `ScanStepStats`: the running progress totals handed to the
progress callback. -/
structure ScanStepStats where
  totalElems : Nat
  processedElems : Nat
deriving DecidableEq, Repr

/-- The scanner settings consumed by this step
(`_settings.scanVersion`, `_settings.skipDuplicateRecordingMBID`). -/
structure ScanSettings where
  scanVersion : Nat
  skipDuplicateRecordingMBID : Bool
deriving DecidableEq, Repr

/-- `MetaData::Track`: the structured record produced by the metadata
parser for one audio file.  `audioStreams` only matters through its
emptiness; stream entries are modelled as bit-rates. -/
structure MetaTrack where
  title : String
  artists : List MetaArtist
  albumArtists : List MetaArtist
  conductorArtists : List MetaArtist
  composerArtists : List MetaArtist
  lyricistArtists : List MetaArtist
  mixerArtists : List MetaArtist
  performerArtists : List (String × List MetaArtist)
  producerArtists : List MetaArtist
  remixerArtists : List MetaArtist
  album : Option MetaAlbum
  clusters : List (String × List String)
  audioStreams : List Nat
  duration : Nat
  trackNumber : Option Nat
  discNumber : Option Nat
  totalTrack : Option Nat
  totalDisc : Option Nat
  discSubtitle : String
  date : Option PDate
  originalDate : Option PDate
  recordingMBID : Option String
  trackMBID : Option String
  hasCover : Bool
  copyright : String
  copyrightURL : String
  trackReplayGain : Option Int
  albumReplayGain : Option Int
deriving DecidableEq, Repr

/-- `file.filename()`: the component after the last path separator. -/
def pathFilename (p : String) : String :=
  match (p.splitOn "/").getLast? with
  | some s => s
  | none => p

/-- The change-detector decision (lines 256-270): skip when not in
force-scan mode, a track exists at the path, its stored last-write
time equals the file's and its stored scan version is current. -/
def detectorSkips (settings : ScanSettings) (forceScan : Bool) (db : Db)
    (file : String) (lastWriteTime : Nat) : Bool :=
  !forceScan &&
    (match findTrackByPath db file with
     | some track =>
         track.lastWriteTime == lastWriteTime
           && track.scanVersion == settings.scanVersion
     | none => false)

/-- The duplicate-recording loop condition (lines 289-302): some
*other* cataloged track (an identity different from the track at this
path, when there is one) carries the same recording MBID. -/
def duplicateRecordingExists (db : Db) (track0 : Option Track) (m : String) : Bool :=
  (findTracksByRecordingMBID db m).any
    (fun otherTrack =>
      match track0 with
      | some track => track.id != otherTrack.id
      | none => true)

/-- Whether the skip-duplicate-recording-MBID policy abandons this
file (lines 287-303). -/
def duplicateSkip (settings : ScanSettings) (trackInfo : MetaTrack) (db : Db)
    (track0 : Option Track) : Bool :=
  match trackInfo.recordingMBID with
  | some m => settings.skipDuplicateRecordingMBID && duplicateRecordingExists db track0 m
  | none => false

/-- Add an artist link per resolved artist of one role list: the body
of each `for` loop of lines 366-396. -/
def linksForRole (db : Db) (infos : List MetaArtist) (allowFallback : Bool)
    (lt : LinkType) (role : String) : List ArtistLink × Db :=
  let (artists, db) := getOrCreateArtists db infos allowFallback
  (artists.map (fun a => { artistId := a.id, linkType := lt, role := role }), db)

/-- The full artist-link rebuild of lines 364-396: nine role lists in
source order, with `allowFallbackOnMBIDEntries` false for the main
artists and release artists and true for every other role; performer
links additionally carry their role string. -/
def buildArtistLinks (db : Db) (trackInfo : MetaTrack) : List ArtistLink × Db :=
  let (l1, db) := linksForRole db trackInfo.artists false .artist ""
  let (l2, db) := linksForRole db trackInfo.albumArtists false .releaseArtist ""
  let (l3, db) := linksForRole db trackInfo.conductorArtists true .conductor ""
  let (l4, db) := linksForRole db trackInfo.composerArtists true .composer ""
  let (l5, db) := linksForRole db trackInfo.lyricistArtists true .lyricist ""
  let (l6, db) := linksForRole db trackInfo.mixerArtists true .mixer ""
  let (l7, db) := trackInfo.performerArtists.foldl
    (fun (acc : List ArtistLink × Db) pair =>
      let (ls, db) := linksForRole acc.2 pair.2 true .performer pair.1
      (acc.1 ++ ls, db))
    ([], db)
  let (l8, db) := linksForRole db trackInfo.producerArtists true .producer ""
  let (l9, db) := linksForRole db trackInfo.remixerArtists true .remixer ""
  (l1 ++ l2 ++ l3 ++ l4 ++ l5 ++ l6 ++ l7 ++ l8 ++ l9, db)

/-- The unconditional field rewrite of lines 335-428 applied to a
track (fresh or pre-existing): clear and rebuild artist links, resolve
the release and clusters, and set every scalar field, including the
original-date fallback for the release date.  Returns the final track
value together with the catalog state after entity resolution and the
`TrackFeatures` discard. -/
def upsertTrackFields (settings : ScanSettings) (file : String)
    (lastWriteTime : Nat) (now : Nat) (trackInfo : MetaTrack)
    (db : Db) (track : Track) : Track × Db :=
  let title := if trackInfo.title ≠ "" then trackInfo.title else pathFilename file
  let (links, db) := buildArtistLinks db trackInfo
  let (release, db) :=
    match trackInfo.album with
    | some album => getOrCreateRelease db album
    | none => (none, db)
  let (clusters, db) := getOrCreateClusters db trackInfo.clusters
  let date :=
    if trackInfo.date.isNone && trackInfo.originalDate.isSome then
      trackInfo.originalDate
    else
      trackInfo.date
  let db := { db with trackFeatures := db.trackFeatures.filter (fun i => i ≠ track.id) }
  let track :=
    { track with
        artistLinks := links
        scanVersion := settings.scanVersion
        release := release.map (fun r => r.id)
        clusterIds := clusters.map (fun c => c.id)
        lastWriteTime := lastWriteTime
        name := title
        duration := trackInfo.duration
        addedTime := now
        trackNumber := match trackInfo.trackNumber with | some n => n | none => 0
        discNumber := match trackInfo.discNumber with | some n => n | none => 0
        totalTrack := trackInfo.totalTrack
        totalDisc := trackInfo.totalDisc
        discSubtitle := trackInfo.discSubtitle
        date := date
        originalDate := trackInfo.originalDate
        recordingMBID := trackInfo.recordingMBID
        trackMBID := trackInfo.trackMBID
        hasCover := trackInfo.hasCover
        copyright := trackInfo.copyright
        copyrightURL := trackInfo.copyrightURL
        trackReplayGain := trackInfo.trackReplayGain
        releaseReplayGain := trackInfo.albumReplayGain }
  (track, db)

/-- A fresh track as created by `dbSession.create<Track>(file)`: only
the path is set; every other field starts at its default. -/
def newTrack (tid : Nat) (file : String) : Track :=
  { id := tid, path := file, name := "", duration := 0, lastWriteTime := 0
    scanVersion := 0, addedTime := 0, release := none, clusterIds := []
    artistLinks := [], trackNumber := 0, discNumber := 0, totalTrack := none
    totalDisc := none, discSubtitle := "", date := none, originalDate := none
    recordingMBID := none, trackMBID := none, hasCover := false, copyright := ""
    copyrightURL := "", trackReplayGain := none, releaseReplayGain := none }

/-- Write the final track value back: a fresh track is appended to the
table, an updated one replaces the row with its id. -/
def storeTrack (db : Db) (isNew : Bool) (track : Track) : Db :=
  if isNew then
    { db with tracks := db.tracks ++ [track] }
  else
    { db with tracks := db.tracks.map (fun t => if t.id = track.id then track else t) }

/-- `ScanStepScanFiles::scanAudioFile` (lines 240-429).  The ambient
I/O is passed explicitly: `lastWriteTimeResult` is the outcome of
`getLastWriteTime`, `parsed` the parser's result, `now` the current
time used for the added timestamp. -/
def scanAudioFile (settings : ScanSettings) (file : String)
    (lastWriteTimeResult : Except String Nat) (parsed : Option MetaTrack)
    (now : Nat) (forceScan : Bool) (db : Db) (stats : ScanStats) :
    Db × ScanStats :=
  match lastWriteTimeResult with
  | .error _ => (db, { stats with skips := stats.skips + 1 })
  | .ok lastWriteTime =>
    if detectorSkips settings forceScan db file lastWriteTime then
      (db, { stats with skips := stats.skips + 1 })
    else
      match parsed with
      | none =>
          (db, { stats with
                   errors := stats.errors ++ [⟨file, .cannotParseFile, ""⟩] })
      | some trackInfo =>
        let stats := { stats with scans := stats.scans + 1 }
        let track0 := findTrackByPath db file
        if duplicateSkip settings trackInfo db track0 then
          match track0 with
          | some track =>
              (removeTrack db track.id,
               { stats with deletions := stats.deletions + 1 })
          | none => (db, stats)
        else if trackInfo.audioStreams.isEmpty then
          match track0 with
          | some track =>
              (removeTrack db track.id,
               { stats with
                   deletions := stats.deletions + 1
                   errors := stats.errors ++ [⟨file, .noAudioTrack, ""⟩] })
          | none =>
              (db, { stats with
                       errors := stats.errors ++ [⟨file, .noAudioTrack, ""⟩] })
        else if trackInfo.duration == 0 then
          match track0 with
          | some track =>
              (removeTrack db track.id,
               { stats with
                   deletions := stats.deletions + 1
                   errors := stats.errors ++ [⟨file, .badDuration, ""⟩] })
          | none =>
              (db, { stats with
                       errors := stats.errors ++ [⟨file, .badDuration, ""⟩] })
        else
          match track0 with
          | none =>
              let track := newTrack db.nextId file
              let db := { db with nextId := db.nextId + 1 }
              let stats := { stats with additions := stats.additions + 1 }
              let (track, db) :=
                upsertTrackFields settings file lastWriteTime now trackInfo db track
              (storeTrack db true track, stats)
          | some track =>
              let stats := { stats with updates := stats.updates + 1 }
              let (track, db) :=
                upsertTrackFields settings file lastWriteTime now trackInfo db track
              (storeTrack db false track, stats)

/-- One event produced by `PathUtils::exploreFilesRecursive`: either an
entry that failed with an error code and message, or a visited file
path together with the ambient facts `scanAudioFile` would observe for
it (whether its extension is supported, its last-write-time lookup
outcome, and its parse outcome). -/
inductive WalkEntry where
  | errorEntry (path : String) (message : String)
  | fileEntry (path : String) (hasSupportedExtension : Bool)
      (lastWriteTimeResult : Except String Nat) (parsed : Option MetaTrack)
deriving Repr

/-- The state threaded through `ScanStepScanFiles::process`: the
catalog, the run stats, the current-step progress counters, and the
sequence of progress values passed to `_progressCallback` (most recent
last). -/
structure ProcessState where
  db : Db
  stats : ScanStats
  currentStepStats : ScanStepStats
  progressCalls : List ScanStepStats
deriving Repr

/-- The body of the `exploreFilesRecursive` callback (lines 218-237):
walker errors are recorded as `CannotReadFile`; files with a supported
extension are scanned, then the processed-elements total is bumped and
the progress callback invoked. -/
def processEntry (settings : ScanSettings) (now : Nat) (forceScan : Bool)
    (st : ProcessState) (entry : WalkEntry) : ProcessState :=
  match entry with
  | .errorEntry path message =>
      { st with
          stats := { st.stats with
                       errors := st.stats.errors ++
                         [⟨path, .cannotReadFile, message⟩] } }
  | .fileEntry path hasSupportedExtension lastWriteTimeResult parsed =>
      if hasSupportedExtension then
        let (db, stats) :=
          scanAudioFile settings path lastWriteTimeResult parsed now forceScan
            st.db st.stats
        let currentStepStats :=
          { st.currentStepStats with
              processedElems := st.currentStepStats.processedElems + 1 }
        { db := db, stats := stats, currentStepStats := currentStepStats
          progressCalls := st.progressCalls ++ [currentStepStats] }
      else
        st

/-- `ScanStepScanFiles::process` (lines 211-238): set the expected
total from the discovery count, then fold the walker's events through
`processEntry`; when the abort flag is set at the start the callback
refuses every entry and nothing runs. -/
def process (settings : ScanSettings) (now : Nat) (forceScan : Bool)
    (abortScan : Bool) (entries : List WalkEntry) (db : Db) (stats : ScanStats)
    (initialProcessedElems : Nat) : ProcessState :=
  let st : ProcessState :=
    { db := db, stats := stats
      currentStepStats :=
        { totalElems := stats.filesScanned
          processedElems := initialProcessedElems }
      progressCalls := [] }
  if abortScan then st
  else entries.foldl (processEntry settings now forceScan) st

/-- `MetaData::ParserReadStyle`. -/
inductive ParserReadStyle where
  | fast
  | average
  | accurate
deriving DecidableEq, Repr

/-- `getParserReadStyle` (lines 187-200): read the
`scanner-parser-read-style` option (default `"accurate"` when unset)
and map it; any other value throws an `LmsException`. -/
def getParserReadStyle (configValue : Option String) :
    Except String ParserReadStyle :=
  let readStyle := match configValue with | some s => s | none => "accurate"
  if readStyle = "fast" then .ok .fast
  else if readStyle = "average" then .ok .average
  else if readStyle = "accurate" then .ok .accurate
  else .error "Invalid value for scanner-parser-read-style"

/-- The `ScanStepScanFiles` constructor (lines 205-209) followed by a
`process` run: the parser read style is resolved at construction, so
an invalid configuration aborts before any entry is handled. -/
def constructAndProcess (configValue : Option String) (settings : ScanSettings)
    (now : Nat) (forceScan : Bool) (abortScan : Bool) (entries : List WalkEntry)
    (db : Db) (stats : ScanStats) (initialProcessedElems : Nat) :
    Except String ProcessState :=
  match getParserReadStyle configValue with
  | .error e => .error e
  | .ok _ =>
      .ok (process settings now forceScan abortScan entries db stats
            initialProcessedElems)

/-- The fallback policy per artist role, as the spec states it: false
exactly for the main-artist and release-artist roles, true for every
other role. -/
def allowFallbackForLinkType : LinkType → Bool
  | .artist => false
  | .releaseArtist => false
  | _ => true

/-- Link building re-expressed with the flag at each call site drawn
from `allowFallbackForLinkType`; compared against `buildArtistLinks`,
whose flags are the literal booleans of the source. -/
def buildArtistLinksByRole (db : Db) (trackInfo : MetaTrack) : List ArtistLink × Db :=
  let (l1, db) := linksForRole db trackInfo.artists
    (allowFallbackForLinkType .artist) .artist ""
  let (l2, db) := linksForRole db trackInfo.albumArtists
    (allowFallbackForLinkType .releaseArtist) .releaseArtist ""
  let (l3, db) := linksForRole db trackInfo.conductorArtists
    (allowFallbackForLinkType .conductor) .conductor ""
  let (l4, db) := linksForRole db trackInfo.composerArtists
    (allowFallbackForLinkType .composer) .composer ""
  let (l5, db) := linksForRole db trackInfo.lyricistArtists
    (allowFallbackForLinkType .lyricist) .lyricist ""
  let (l6, db) := linksForRole db trackInfo.mixerArtists
    (allowFallbackForLinkType .mixer) .mixer ""
  let (l7, db) := trackInfo.performerArtists.foldl
    (fun (acc : List ArtistLink × Db) pair =>
      let (ls, db) := linksForRole acc.2 pair.2
        (allowFallbackForLinkType .performer) .performer pair.1
      (acc.1 ++ ls, db))
    ([], db)
  let (l8, db) := linksForRole db trackInfo.producerArtists
    (allowFallbackForLinkType .producer) .producer ""
  let (l9, db) := linksForRole db trackInfo.remixerArtists
    (allowFallbackForLinkType .remixer) .remixer ""
  (l1 ++ l2 ++ l3 ++ l4 ++ l5 ++ l6 ++ l7 ++ l8 ++ l9, db)

/-- The number of walk entries `process` hands to `scanAudioFile`:
non-error entries whose extension is supported. -/
def countScannedEntries : List WalkEntry → Nat
  | [] => 0
  | .fileEntry _ true _ _ :: rest => countScannedEntries rest + 1
  | _ :: rest => countScannedEntries rest

/-- An empty catalog. -/
def emptyDb : Db :=
  { artists := [], releases := [], tracks := [], clusters := []
    clusterTypeNames := [], trackFeatures := [], nextId := 0 }

/-- Zeroed statistics. -/
def emptyStats : ScanStats :=
  { filesScanned := 0, skips := 0, scans := 0, additions := 0, updates := 0
    deletions := 0, errors := [] }

/-- A cataloged track at path `a.mp3`, stamped with last-write time 7
and scan version 3 (used as a concrete witness input). -/
def sampleTrack : Track :=
  { newTrack 0 "a.mp3" with lastWriteTime := 7, scanVersion := 3 }

/-- A catalog holding exactly `sampleTrack`. -/
def sampleDb : Db := { emptyDb with tracks := [sampleTrack], nextId := 1 }

/-- A parsed record with every field empty or absent (used as a
concrete witness input, adjusted per scenario). -/
def emptyMetaTrack : MetaTrack :=
  { title := "", artists := [], albumArtists := [], conductorArtists := []
    composerArtists := [], lyricistArtists := [], mixerArtists := []
    performerArtists := [], producerArtists := [], remixerArtists := []
    album := none, clusters := [], audioStreams := [], duration := 0
    trackNumber := none, discNumber := none, totalTrack := none
    totalDisc := none, discSubtitle := "", date := none, originalDate := none
    recordingMBID := none, trackMBID := none, hasCover := false
    copyright := "", copyrightURL := "", trackReplayGain := none
    albumReplayGain := none }

/-- A track at `a.mp3` carrying recording MBID `r1` (witness input). -/
def dupTrackA : Track := { newTrack 0 "a.mp3" with recordingMBID := some "r1" }

/-- A second track, at `b.mp3`, carrying the same recording MBID. -/
def dupTrackB : Track := { newTrack 1 "b.mp3" with recordingMBID := some "r1" }

/-- A catalog already holding both tracks with recording MBID `r1`. -/
def dupDb : Db := { emptyDb with tracks := [dupTrackA, dupTrackB], nextId := 2 }

section Lemmas

/-- `find?` with a constantly-true predicate returns the head. -/
theorem find?_true_eq_head? {α : Type} (l : List α) :
    l.find? (fun _ => true) = l.head? := by
  cases l <;> rfl

/-- `updateArtistIfNeeded` never changes the row identity. -/
theorem updateArtist_id (a : Artist) (info : MetaArtist) :
    (updateArtist a info).id = a.id := by
  unfold updateArtist
  cases info.sortName <;> dsimp only <;> split <;> try split
  all_goals rfl

/-- `updateArtistIfNeeded` never touches the stored MBID. -/
theorem updateArtist_mbid (a : Artist) (info : MetaArtist) :
    (updateArtist a info).mbid = a.mbid := by
  unfold updateArtist
  cases info.sortName <;> dsimp only <;> split <;> try split
  all_goals rfl

/-- After `updateArtistIfNeeded` the stored name is the parsed name
(either it already was, or it has just been overwritten). -/
theorem updateArtist_name (a : Artist) (info : MetaArtist) :
    (updateArtist a info).name = info.name := by
  unfold updateArtist
  cases info.sortName <;> dsimp only
  case none =>
    split
    · rfl
    · next h => simpa using h
  case some sn =>
    split <;> split
    · rfl
    · rfl
    · next h _ => simpa using h
    · next h _ => simpa using h

/-- After `updateArtistIfNeeded` the stored sort-name is the supplied
one when there is one, and is untouched otherwise. -/
theorem updateArtist_sortName (a : Artist) (info : MetaArtist) :
    (updateArtist a info).sortName
      = match info.sortName with | some sn => sn | none => a.sortName := by
  unfold updateArtist
  cases info.sortName <;> dsimp only
  case none => split <;> rfl
  case some sn =>
    split <;> split
    · rfl
    · next h2 => simp at h2; exact h2.symm
    · rfl
    · next h2 => simp at h2; exact h2.symm

/-- Replacing an artist row keeps the table size: no row is created. -/
theorem replaceArtist_length (db : Db) (aid : Nat) (a : Artist) :
    (replaceArtist db aid a).artists.length = db.artists.length := by
  simp [replaceArtist]

end Lemmas

/-- C1: re-scanning a file whose path already has a cataloged track,
with the force-rescan flag unset, the same last-write time and the
current scan version, leaves the whole catalog untouched and changes
the statistics only by incrementing the skip counter (errors and every
other counter included, by the record equality). -/
theorem scan_unchanged_file_is_pure_skip
    (settings : ScanSettings) (file : String) (lwt : Nat)
    (parsed : Option MetaTrack) (now : Nat) (db : Db) (stats : ScanStats)
    (track : Track)
    (h1 : findTrackByPath db file = some track)
    (h2 : track.lastWriteTime = lwt)
    (h3 : track.scanVersion = settings.scanVersion) :
    scanAudioFile settings file (.ok lwt) parsed now false db stats
      = (db, { stats with skips := stats.skips + 1 }) := by
  simp [scanAudioFile, detectorSkips, h1, h2, h3]

/-- Witness for C1 at a concrete catalog: the file at `a.mp3` with
last-write time 7 under scan version 3 is a pure skip. -/
theorem scan_unchanged_file_is_pure_skip_witness :
    scanAudioFile ⟨3, true⟩ "a.mp3" (.ok 7) none 0 false sampleDb emptyStats
      = (sampleDb, { emptyStats with skips := emptyStats.skips + 1 }) :=
  scan_unchanged_file_is_pure_skip ⟨3, true⟩ "a.mp3" 7 none 0 sampleDb emptyStats
    sampleTrack rfl rfl rfl

/-- C4 (MBID precedence): for a raw artist record carrying an MBID,
resolution looks the artist up by that MBID; on a hit the same entity
(same id, same MBID, table size unchanged) is returned with its name
set to the parsed name and its sort-name to the supplied one when
given; on a miss a fresh artist is created with the parsed name, the
MBID and the supplied sort-name. -/
theorem resolveArtist_mbid_first
    (db : Db) (info : MetaArtist) (allowFallback : Bool) (m : String)
    (h : info.musicBrainzArtistID = some m) :
    (∀ a, findArtistByMBID db m = some a →
        resolveArtist db info allowFallback
            = (some (updateArtist a info),
               replaceArtist db a.id (updateArtist a info))
          ∧ (updateArtist a info).id = a.id
          ∧ (updateArtist a info).mbid = a.mbid
          ∧ (updateArtist a info).name = info.name
          ∧ (updateArtist a info).sortName
              = (match info.sortName with | some sn => sn | none => a.sortName)
          ∧ (replaceArtist db a.id (updateArtist a info)).artists.length
              = db.artists.length)
    ∧ (findArtistByMBID db m = none →
        resolveArtist db info allowFallback
          = (some { id := db.nextId, name := info.name
                    sortName := match info.sortName with | some sn => sn | none => ""
                    mbid := some m },
             { db with
                 artists := db.artists ++
                   [{ id := db.nextId, name := info.name
                      sortName := match info.sortName with | some sn => sn | none => ""
                      mbid := some m }]
                 nextId := db.nextId + 1 })) := by
  constructor
  · intro a ha
    refine ⟨?_, updateArtist_id a info, updateArtist_mbid a info,
      updateArtist_name a info, updateArtist_sortName a info,
      replaceArtist_length db a.id (updateArtist a info)⟩
    simp [resolveArtist, h, ha]
  · intro ha
    simp [resolveArtist, createArtist, h, ha]

/-- Witness for C4: an artist tagged `mb` with stored name `Old` is
found by MBID and updated in place to name `New`, sort-name `SN`. -/
theorem resolveArtist_mbid_first_witness :
    resolveArtist ⟨[⟨0, "Old", "", some "mb"⟩], [], [], [], [], [], 1⟩
        ⟨"New", some "mb", some "SN"⟩ false
      = (some ⟨0, "New", "SN", some "mb"⟩,
         ⟨[⟨0, "New", "SN", some "mb"⟩], [], [], [], [], [], 1⟩) := by
  have h := (resolveArtist_mbid_first
    ⟨[⟨0, "Old", "", some "mb"⟩], [], [], [], [], [], 1⟩
    ⟨"New", some "mb", some "SN"⟩ false "mb" rfl).1
    ⟨0, "Old", "", some "mb"⟩ rfl
  exact h.1.trans (by decide)

/-- C6 counterexample: at a concrete unreadable file the code
increments the skip counter but appends nothing to the run's error
list, refuting the claim that a `CannotReadFile` error is recorded. -/
theorem scan_read_error_records_no_error
    : (scanAudioFile ⟨3, true⟩ "a.mp3" (.error "boom") none 0 false emptyDb
          emptyStats).2.errors = []
      ∧ (scanAudioFile ⟨3, true⟩ "a.mp3" (.error "boom") none 0 false emptyDb
          emptyStats).2.skips = 1 := ⟨rfl, rfl⟩

/-- C6 amended: when the last-write-time lookup fails, processing of
the file stops with no catalog mutation and only the skip counter
incremented; the failure is logged but no error is appended to the
run's error list. -/
theorem scan_read_error_is_pure_skip
    (settings : ScanSettings) (file msg : String) (parsed : Option MetaTrack)
    (now : Nat) (forceScan : Bool) (db : Db) (stats : ScanStats) :
    scanAudioFile settings file (.error msg) parsed now forceScan db stats
      = (db, { stats with skips := stats.skips + 1 }) := rfl

/-- C7 (original-date fallback): the upserted track stores the parsed
release date when it is valid, and otherwise falls back to the
original release date when that one is valid. -/
theorem upsert_release_date_fallback
    (settings : ScanSettings) (file : String) (lwt now : Nat)
    (ti : MetaTrack) (db : Db) (track : Track) :
    (upsertTrackFields settings file lwt now ti db track).1.date
      = if ti.date.isNone && ti.originalDate.isSome then ti.originalDate
        else ti.date := rfl

/-- C8: the read-style option maps `fast`/`average`/`accurate` to the
three parser modes, defaults to `Accurate` when unset, and any other
value makes construction fail before any entry is processed. -/
theorem parser_read_style_mapping :
    getParserReadStyle none = .ok .accurate
    ∧ getParserReadStyle (some "fast") = .ok .fast
    ∧ getParserReadStyle (some "average") = .ok .average
    ∧ getParserReadStyle (some "accurate") = .ok .accurate
    ∧ ∀ s, s ≠ "fast" → s ≠ "average" → s ≠ "accurate" →
        ∀ (settings : ScanSettings) (now : Nat) (forceScan abortScan : Bool)
          (entries : List WalkEntry) (db : Db) (stats : ScanStats) (p0 : Nat),
          constructAndProcess (some s) settings now forceScan abortScan entries
              db stats p0
            = .error "Invalid value for scanner-parser-read-style" := by
  refine ⟨rfl, rfl, rfl, rfl, ?_⟩
  intro s h1 h2 h3 settings now forceScan abortScan entries db stats p0
  simp [constructAndProcess, getParserReadStyle, h1, h2, h3]

/-- Witness for C8: the value `bogus` makes the whole run fail with
the configuration error. -/
theorem parser_read_style_mapping_witness :
    constructAndProcess (some "bogus") ⟨0, false⟩ 0 false false [] emptyDb
        emptyStats 0
      = .error "Invalid value for scanner-parser-read-style" :=
  parser_read_style_mapping.2.2.2.2 "bogus" (by decide) (by decide) (by decide)
    ⟨0, false⟩ 0 false false [] emptyDb emptyStats 0

/-- C10: album information with an empty name and no MBID resolves to
no release without touching the catalog, and the upsert then behaves
exactly as if the file carried no album information at all, leaving
the track's release association cleared. -/
theorem empty_album_clears_release
    (db : Db) (settings : ScanSettings) (file : String) (lwt now : Nat)
    (ti : MetaTrack) (track : Track) :
    getOrCreateRelease db ⟨"", none⟩ = (none, db)
    ∧ upsertTrackFields settings file lwt now { ti with album := some ⟨"", none⟩ }
          db track
        = upsertTrackFields settings file lwt now { ti with album := none } db track
    ∧ (upsertTrackFields settings file lwt now { ti with album := some ⟨"", none⟩ }
          db track).1.release = none := ⟨rfl, rfl, rfl⟩

/-- C2 (name-fallback policy): a raw artist record with no MBID and a
non-empty name scans the same-named artists in encounter order — with
the fallback flag off, the first match without an MBID is selected
(creating a fresh artist when every match is tagged or none exists),
with it on, the first match regardless of MBID; and the flag used by
the upsert is false exactly for the main-artist and release-artist
roles and true for every other role. -/
theorem artist_name_fallback_policy :
    (∀ (db : Db) (info : MetaArtist), info.musicBrainzArtistID = none →
        info.name ≠ "" →
        resolveArtist db info false
            = (match (findArtistsByName db info.name).find?
                  (fun a => a.mbid.isNone) with
               | none => (some (createArtist db info).1, (createArtist db info).2)
               | some a =>
                   (some (updateArtist a info),
                    replaceArtist db a.id (updateArtist a info)))
          ∧ resolveArtist db info true
            = (match (findArtistsByName db info.name).head? with
               | none => (some (createArtist db info).1, (createArtist db info).2)
               | some a =>
                   (some (updateArtist a info),
                    replaceArtist db a.id (updateArtist a info))))
    ∧ ∀ (db : Db) (trackInfo : MetaTrack),
        buildArtistLinks db trackInfo = buildArtistLinksByRole db trackInfo := by
  constructor
  · intro db info h hn
    constructor
    · simp only [resolveArtist, h, Bool.false_or, if_pos hn]
    · simp only [resolveArtist, h, Bool.true_or, if_pos hn, find?_true_eq_head?]
  · intro db trackInfo
    rfl

/-- Witness for C2: with one same-named MBID-tagged artist cataloged,
the main-artist policy (flag off) creates a fresh artist while the
secondary-role policy (flag on) reuses the tagged one. -/
theorem artist_name_fallback_policy_witness :
    resolveArtist ⟨[⟨0, "X", "", some "mb"⟩], [], [], [], [], [], 1⟩
        ⟨"X", none, none⟩ false
      = (some ⟨1, "X", "", none⟩,
         ⟨[⟨0, "X", "", some "mb"⟩, ⟨1, "X", "", none⟩], [], [], [], [], [], 2⟩)
    ∧ resolveArtist ⟨[⟨0, "X", "", some "mb"⟩], [], [], [], [], [], 1⟩
        ⟨"X", none, none⟩ true
      = (some ⟨0, "X", "", some "mb"⟩,
         ⟨[⟨0, "X", "", some "mb"⟩], [], [], [], [], [], 1⟩) := by
  have h := artist_name_fallback_policy.1
    ⟨[⟨0, "X", "", some "mb"⟩], [], [], [], [], [], 1⟩ ⟨"X", none, none⟩ rfl
    (by decide)
  exact ⟨h.1.trans (by decide), h.2.trans (by decide)⟩

/-- C3 (duplicate recording suppression): when the parsed record
carries a recording MBID, the policy is on and another cataloged track
(different identity than the one at this path, if any) carries the
same recording MBID, the file is abandoned with no validity check run
and no error recorded: the pre-existing track at the path, when there
is one, is removed and the deletion counter incremented, and nothing
else in the catalog changes. -/
theorem scan_duplicate_recording_abandons
    (settings : ScanSettings) (file : String) (lwt : Nat) (ti : MetaTrack)
    (now : Nat) (forceScan : Bool) (db : Db) (stats : ScanStats) (m : String)
    (hm : ti.recordingMBID = some m)
    (hpolicy : settings.skipDuplicateRecordingMBID = true)
    (hdet : detectorSkips settings forceScan db file lwt = false)
    (hdup : duplicateRecordingExists db (findTrackByPath db file) m = true) :
    scanAudioFile settings file (.ok lwt) (some ti) now forceScan db stats
      = match findTrackByPath db file with
        | some track =>
            (removeTrack db track.id,
             { stats with scans := stats.scans + 1
                          deletions := stats.deletions + 1 })
        | none => (db, { stats with scans := stats.scans + 1 }) := by
  cases htr : findTrackByPath db file with
  | none =>
      rw [htr] at hdup
      simp [scanAudioFile, hdet, duplicateSkip, hm, hpolicy, htr, hdup]
  | some track =>
      rw [htr] at hdup
      simp [scanAudioFile, hdet, duplicateSkip, hm, hpolicy, htr, hdup]

/-- Witness for C3: re-scanning `a.mp3` while `b.mp3` already carries
recording MBID `r1` deletes the track at `a.mp3` and bumps only the
scan and deletion counters. -/
theorem scan_duplicate_recording_abandons_witness :
    scanAudioFile ⟨3, true⟩ "a.mp3" (.ok 7)
        (some { emptyMetaTrack with recordingMBID := some "r1" }) 0 true dupDb
        emptyStats
      = ({ emptyDb with tracks := [dupTrackB], nextId := 2 },
         { emptyStats with scans := 1, deletions := 1 }) := by
  have h := scan_duplicate_recording_abandons ⟨3, true⟩ "a.mp3" 7
    { emptyMetaTrack with recordingMBID := some "r1" } 0 true dupDb emptyStats
    "r1" rfl rfl rfl (by decide)
  exact h.trans (by decide)

/-- C5 (validity gate): a record that survives change detection and
duplicate suppression but has no audio stream or a zero duration
removes the pre-existing track at the path when there is one (counting
a deletion), records the matching typed error — `NoAudioTrack` when
there is no stream, else `BadDuration` — and does nothing further. -/
theorem scan_validity_gate
    (settings : ScanSettings) (file : String) (lwt : Nat) (ti : MetaTrack)
    (now : Nat) (forceScan : Bool) (db : Db) (stats : ScanStats)
    (hdet : detectorSkips settings forceScan db file lwt = false)
    (hdup : duplicateSkip settings ti db (findTrackByPath db file) = false)
    (hbad : ti.audioStreams = [] ∨ ti.duration = 0) :
    scanAudioFile settings file (.ok lwt) (some ti) now forceScan db stats
      = (let e : ScanErrorType :=
           if ti.audioStreams.isEmpty then .noAudioTrack else .badDuration
         match findTrackByPath db file with
         | some track =>
             (removeTrack db track.id,
              { stats with scans := stats.scans + 1
                           deletions := stats.deletions + 1
                           errors := stats.errors ++ [⟨file, e, ""⟩] })
         | none =>
             (db, { stats with scans := stats.scans + 1
                               errors := stats.errors ++ [⟨file, e, ""⟩] })) := by
  by_cases hs : ti.audioStreams = []
  · cases htr : findTrackByPath db file with
    | none =>
        rw [htr] at hdup
        simp [scanAudioFile, hdet, htr, hdup, hs]
    | some track =>
        rw [htr] at hdup
        simp [scanAudioFile, hdet, htr, hdup, hs]
  · have hd : ti.duration = 0 := by
      rcases hbad with h | h
      · exact absurd h hs
      · exact h
    cases htr : findTrackByPath db file with
    | none =>
        rw [htr] at hdup
        simp [scanAudioFile, hdet, htr, hdup, hs, hd, List.isEmpty_iff]
    | some track =>
        rw [htr] at hdup
        simp [scanAudioFile, hdet, htr, hdup, hs, hd, List.isEmpty_iff]

/-- Witness for C5: a parsed record with no audio stream on an empty
catalog records a `NoAudioTrack` error, nothing else. -/
theorem scan_validity_gate_witness :
    scanAudioFile ⟨0, false⟩ "a.mp3" (.ok 7) (some emptyMetaTrack) 0 true emptyDb
        emptyStats
      = (emptyDb,
         { emptyStats with scans := 1
                           errors := [⟨"a.mp3", .noAudioTrack, ""⟩] }) := by
  have h := scan_validity_gate ⟨0, false⟩ "a.mp3" 7 emptyMetaTrack 0 true emptyDb
    emptyStats rfl rfl (Or.inl rfl)
  exact h.trans (by decide)

/-- Folding the per-entry callback body appends one progress call per
supported non-error file, each reporting the just-incremented
processed-elements total, and leaves the expected total alone. -/
theorem processEntry_fold_progress (settings : ScanSettings) (now : Nat)
    (forceScan : Bool) :
    ∀ (entries : List WalkEntry) (st : ProcessState),
      ((entries.foldl (processEntry settings now forceScan) st).progressCalls.map
          (fun s => s.processedElems))
        = st.progressCalls.map (fun s => s.processedElems)
            ++ List.range' (st.currentStepStats.processedElems + 1)
                (countScannedEntries entries)
      ∧ (entries.foldl (processEntry settings now forceScan)
            st).currentStepStats.processedElems
        = st.currentStepStats.processedElems + countScannedEntries entries := by
  intro entries
  induction entries with
  | nil => intro st; simp [countScannedEntries]
  | cons e rest ih =>
      intro st
      cases e with
      | errorEntry p msg =>
          have hstep : processEntry settings now forceScan st (.errorEntry p msg)
              = { st with
                    stats := { st.stats with
                                 errors := st.stats.errors ++
                                   [⟨p, .cannotReadFile, msg⟩] } } := rfl
          rcases ih (processEntry settings now forceScan st (.errorEntry p msg))
            with ⟨ihc, ihp⟩
          rw [hstep] at ihc ihp
          exact ⟨by simpa [countScannedEntries] using ihc,
                 by simpa [countScannedEntries] using ihp⟩
      | fileEntry p ext lwtRes parsed =>
          cases ext with
          | false =>
              have hstep : processEntry settings now forceScan st
                  (.fileEntry p false lwtRes parsed) = st := rfl
              rcases ih (processEntry settings now forceScan st
                (.fileEntry p false lwtRes parsed)) with ⟨ihc, ihp⟩
              rw [hstep] at ihc ihp
              exact ⟨by simpa [countScannedEntries] using ihc,
                     by simpa [countScannedEntries] using ihp⟩
          | true =>
              rcases ih (processEntry settings now forceScan st
                (.fileEntry p true lwtRes parsed)) with ⟨ihc, ihp⟩
              have hcalls : (processEntry settings now forceScan st
                  (.fileEntry p true lwtRes parsed)).progressCalls
                  = st.progressCalls ++
                    [{ st.currentStepStats with
                         processedElems :=
                           st.currentStepStats.processedElems + 1 }] := rfl
              have hcur : (processEntry settings now forceScan st
                  (.fileEntry p true lwtRes parsed)).currentStepStats.processedElems
                  = st.currentStepStats.processedElems + 1 := rfl
              rw [hcalls] at ihc
              rw [hcur] at ihc ihp
              constructor
              · rw [List.foldl_cons, ihc]
                simp only [countScannedEntries, List.map_append, List.map_cons,
                  List.map_nil, List.append_assoc]
                congr 1
              · rw [List.foldl_cons, ihp]
                simp only [countScannedEntries]
                omega

/-- C9 counterexample: one supported file whose last-write time cannot
be read is a skipped file (the skip counter reaches 1), yet the
progress callback is still invoked once for it, refuting the claim
that the callback is not invoked after skipped files. -/
theorem progress_called_after_skipped_file :
    (process ⟨0, false⟩ 0 false false
        [.fileEntry "a.mp3" true (.error "boom") none] emptyDb emptyStats
        0).stats.skips = 1
    ∧ (process ⟨0, false⟩ 0 false false
        [.fileEntry "a.mp3" true (.error "boom") none] emptyDb emptyStats
        0).progressCalls = [⟨0, 1⟩] := ⟨rfl, rfl⟩

/-- C9 amended: during a run with the abort flag unset, the progress
callback is invoked exactly once per walked entry that is a supported
file handed to `scanAudioFile` — including files the scan skips — and
not for walker errors or unsupported paths; the i-th invocation
reports the processed-elements total already incremented to its i-th
value, so every invocation follows the increment. -/
theorem process_progress_calls_exact
    (settings : ScanSettings) (now : Nat) (forceScan : Bool)
    (entries : List WalkEntry) (db : Db) (stats : ScanStats) (p0 : Nat) :
    ((process settings now forceScan false entries db stats p0).progressCalls.map
        (fun s => s.processedElems))
      = List.range' (p0 + 1) (countScannedEntries entries)
    ∧ (process settings now forceScan false entries db stats
          p0).currentStepStats.processedElems
      = p0 + countScannedEntries entries := by
  have h := processEntry_fold_progress settings now forceScan entries
    { db := db, stats := stats
      currentStepStats :=
        { totalElems := stats.filesScanned, processedElems := p0 }
      progressCalls := [] }
  rcases h with ⟨hc, hp⟩
  exact ⟨by simpa [process] using hc, by simpa [process] using hp⟩

end LmsScan
